import Mathlib

/-!
Verification of the AskCody navigation script (src/actions.js, script version
3.1.0 — the newest variant in the file, which the specification follows).

The embedding models:
* `getEnvironmentFromHostname`, `getPageMapping`, `sanitizePageName`,
  `validateHostname`, `isValidUrl` — direct translations of the utility
  functions;
* `fetchWithRetry` — the retry loop, driven by an `oracle : Nat → FetchOutcome`
  giving the network outcome of each attempt (a response with a status code,
  or a thrown error with a name and message; a timeout surfaces as an
  AbortError through the oracle);
* `navigate_to_page.execute` — split into `execute` (input validation and page
  resolution, lines 33–85) and `decideNavigation` (the policy and probing part
  operating on the resolved page entry, lines 87–185).  `execute` returns the
  result object paired with the list of `window.location.href` assignments
  performed; `Option.none` stands for an execution that never returns (the
  probe promise never settling), which is proved impossible.

JavaScript string `includes` is modelled by `jsIncludes`, and the browser
`URL` constructor by `parseUrl?`, faithful on the absolute
`scheme://host/path` URLs this script builds and checks.
-/

namespace AskCody

/-- Environment type tags, as in the objects returned by
`getEnvironmentFromHostname`. -/
inductive EnvType where
  | EU_PRODUCTION
  | US_PRODUCTION
  | TEST
deriving DecidableEq

/-- The environment record `{ type, appDomain, userDomain }`. -/
structure Environment where
  type : EnvType
  appDomain : String
  userDomain : String
deriving DecidableEq

/-- Helper for `jsIncludes`: does `needle` occur as a contiguous run inside
the list? -/
def includesAux (needle : List Char) : List Char → Bool
  | [] => needle.isEmpty
  | c :: rest => needle.isPrefixOf (c :: rest) || includesAux needle rest

/-- JavaScript `haystack.includes(needle)`: substring containment. -/
def jsIncludes (haystack needle : String) : Bool :=
  includesAux needle.data haystack.data

/-- `getEnvironmentFromHostname` (src/actions.js lines 597–617). -/
def getEnvironmentFromHostname (hostname : String) : Environment :=
  if jsIncludes hostname "goaskcody.com" = true then
    ⟨EnvType.US_PRODUCTION, "app.goaskcody.com", "us.goaskcody.com"⟩
  else if jsIncludes hostname "testaskcody.com" = true then
    ⟨EnvType.TEST, "app.testaskcody.com", "eu.testaskcody.com"⟩
  else
    ⟨EnvType.EU_PRODUCTION, "app.onaskcody.com", "eu.onaskcody.com"⟩

/-- `env.type.replace('_', ' ').toLowerCase()` as used in the cross-region
message (line 108), evaluated on each of the three possible type tags. -/
def envTypeDisplay : EnvType → String
  | EnvType.EU_PRODUCTION => "eu production"
  | EnvType.US_PRODUCTION => "us production"
  | EnvType.TEST => "test"

/-- One entry of the page catalog: `{ url, description, category }`. -/
structure PageInfo where
  url : String
  description : String
  category : String
deriving DecidableEq

/-- `getPageMapping` (src/actions.js lines 619–715): the page catalog as an
association list in source order; JavaScript property lookup is
`List.lookup`. -/
def getPageMapping (hostname : String) : List (String × PageInfo) :=
  let env := getEnvironmentFromHostname hostname
  [ ("dashboard", ⟨"https://" ++ env.appDomain ++ "/manager/dashboard/",
      "Main workspace and overview", "management"⟩),
    ("home", ⟨"https://" ++ env.appDomain ++ "/manager/dashboard/",
      "Same as dashboard - main workspace", "management"⟩),
    ("settings", ⟨"https://" ++ env.appDomain ++ "/manager/admin_center/",
      "Account settings and system configuration", "management"⟩),
    ("admin-center", ⟨"https://" ++ env.appDomain ++ "/manager/admin_center/",
      "Administrative controls and settings", "management"⟩),
    ("services", ⟨"https://" ++ env.appDomain ++ "/manager/meeting/deliveries/",
      "Meeting delivery services and catering", "management"⟩),
    ("visitors", ⟨"https://" ++ env.appDomain ++ "/manager/welcome/guests/",
      "Guest management and visitor registration", "management"⟩),
    ("guests", ⟨"https://" ++ env.appDomain ++ "/manager/welcome/guests/",
      "Same as visitors - guest management", "management"⟩),
    ("insights", ⟨"https://" ++ env.appDomain ++ "/manager/insights/",
      "Analytics, reports and usage data", "management"⟩),
    ("analytics", ⟨"https://" ++ env.appDomain ++ "/manager/insights/",
      "Same as insights - analytics and reports", "management"⟩),
    ("reports", ⟨"https://" ++ env.appDomain ++ "/manager/insights/",
      "Same as insights - reporting dashboard", "management"⟩),
    ("central", ⟨"https://" ++ env.userDomain ++ "/central/events",
      "Event management and scheduling central hub", "user"⟩),
    ("events", ⟨"https://" ++ env.userDomain ++ "/central/events",
      "Same as central - event management", "user"⟩),
    ("maps", ⟨"https://" ++ env.userDomain ++ "/maps/personal",
      "Interactive floor plans and location maps", "user"⟩),
    ("floor-plans", ⟨"https://" ++ env.userDomain ++ "/maps/personal",
      "Same as maps - floor plans and layouts", "user"⟩),
    ("bookings", ⟨"https://" ++ env.userDomain ++ "/all-bookings",
      "Meeting room reservations and booking management", "user"⟩),
    ("reservations", ⟨"https://" ++ env.userDomain ++ "/all-bookings",
      "Same as bookings - room reservations", "user"⟩),
    ("meeting-rooms", ⟨"https://" ++ env.userDomain ++ "/all-bookings",
      "Same as bookings - meeting room management", "user"⟩) ]

/-- `getAvailablePagesDescription` (src/actions.js lines 717–729). -/
def getAvailablePagesDescription : String :=
  "**Management & Admin:**\n• **Dashboard** - Your main workspace and overview\n• **Settings** - Account settings and system configuration\n• **Services** - Meeting delivery services and catering\n• **Visitors/Guests** - Guest management and visitor registration\n• **Insights/Analytics/Reports** - Analytics, reports and usage data\n\n**User Features:**\n• **Central/Events** - Event management and scheduling central hub\n• **Maps/Floor-Plans** - Interactive floor plans and location maps\n• **Bookings/Reservations/Meeting-Rooms** - Meeting room reservations and booking management"

/-- The pieces of a parsed URL that the script consults. -/
structure UrlParts where
  protocol : String
  hostname : String
deriving DecidableEq

/-- Split a character list at the first occurrence of "://", returning the
part before (the scheme) and the part after. -/
def splitUrlAux (acc : List Char) : List Char → Option (List Char × List Char)
  | ':' :: '/' :: '/' :: rest => some (acc.reverse, rest)
  | c :: rest => splitUrlAux (c :: acc) rest
  | [] => none

/-- Characters allowed after the first character of a URL scheme. -/
def isSchemeChar (c : Char) : Bool :=
  c.isAlpha || c.isDigit || c == '+' || c == '-' || c == '.'

/-- Models the browser `new URL(s)` constructor on absolute
`scheme://host/path` URLs (the shape every catalog URL has): the scheme
before "://", the hostname up to the first `/`, `:`, `?` or `#`, both
lower-cased as the URL parser does; `none` models the constructor
throwing. -/
def parseUrl? (s : String) : Option UrlParts :=
  match splitUrlAux [] s.data with
  | none => none
  | some (schemeChars, restChars) =>
    let hostChars :=
      (restChars.takeWhile fun c => !(c == '/' || c == ':' || c == '?' || c == '#')).map Char.toLower
    match schemeChars with
    | [] => none
    | c :: cs =>
      if (c.isAlpha && cs.all isSchemeChar) && !hostChars.isEmpty then
        some ⟨String.mk (schemeChars.map Char.toLower) ++ ":", String.mk hostChars⟩
      else none

/-- `isValidUrl` (src/actions.js lines 731–738). -/
def isValidUrl (s : String) : Bool :=
  match parseUrl? s with
  | some u => u.protocol == "http:" || u.protocol == "https:"
  | none => false

/-- JavaScript `toLowerCase` on the ASCII strings the script handles. -/
def jsToLowerCase (s : String) : String :=
  String.mk (s.data.map Char.toLower)

/-- `sanitizePageName` (src/actions.js lines 747–751): lower-case, keep only
`[a-z0-9-_]`, truncate to 50 characters. -/
def sanitizePageName (page : String) : String :=
  String.mk
    (((page.data.map Char.toLower).filter
        fun c => c.isLower || c.isDigit || c == '-' || c == '_').take 50)

/-- An ASCII letter or digit, the `[a-zA-Z0-9]` class of the hostname
regex. -/
def isAlnumChar (c : Char) : Bool :=
  c.isLower || c.isUpper || c.isDigit

/-- The tail of the hostname regex: zero or more `[a-zA-Z0-9\-.]` followed by
a final `[a-zA-Z0-9]`. -/
def hostTail : List Char → Bool
  | [] => false
  | [c] => isAlnumChar c
  | c :: rest => (isAlnumChar c || c == '-' || c == '.') && hostTail rest

/-- `validateHostname` (src/actions.js lines 753–758): non-empty, matches
`^[a-zA-Z0-9][a-zA-Z0-9\-.]*[a-zA-Z0-9]$` and has length below 255. -/
def validateHostname (hostname : String) : Bool :=
  match hostname.data with
  | [] => false
  | c :: rest => isAlnumChar c && hostTail rest && decide (hostname.length < 255)

/-- The network outcome of one `fetch` attempt: a response with a status
code, or a thrown error (a timeout firing surfaces as name "AbortError"). -/
inductive FetchOutcome where
  | response (status : Nat)
  | failure (name message : String)
deriving DecidableEq

/-- How the `fetchWithRetry` promise settles: resolved with a response
status, rejected with an error (name and message), or never settling. -/
inductive FetchResult where
  | resolved (status : Nat)
  | rejected (name message : String)
  | pending
deriving DecidableEq

/-- A run of the retry loop: how it settled, at which attempt index, and the
backoff delays awaited between attempts (in order). -/
structure FetchRun where
  result : FetchResult
  settledAt : Nat
  waits : List Nat
deriving DecidableEq

/-- `response.ok`: status in the range 200–299. -/
def responseOk (status : Nat) : Bool :=
  decide (200 ≤ status ∧ status < 300)

/-- The condition on which an attempt's response is returned immediately
(line 781): `response.ok || response.status === 401 || response.status ===
403`. -/
def probeTerminal (status : Nat) : Prop :=
  responseOk status = true ∨ status = 401 ∨ status = 403

instance (status : Nat) : Decidable (probeTerminal status) := by
  unfold probeTerminal
  exact inferInstance

/-- Per-attempt timeout (line 766): `baseTimeout + attempt * 1000`. -/
def attemptTimeout (baseTimeout attempt : Nat) : Nat :=
  baseTimeout + attempt * 1000

/-- Backoff before a retry (lines 794 and 809): `2 ^ attempt * 500`. -/
def backoffDelay (attempt : Nat) : Nat :=
  2 ^ attempt * 500

/-- The message of the `Error` built at line 803. -/
def failedAfterMessage (maxRetries : Nat) (message : String) : String :=
  "Failed after " ++ toString (maxRetries + 1) ++ " attempts. Last error: " ++ message

/-- The body of the `for` loop of `fetchWithRetry` (src/actions.js lines
764–812).  `fuel` is the number of loop iterations still permitted by the
loop bound `attempt <= maxRetries` (the caller passes `maxRetries + 1`); when
it reaches zero the loop exits without resolving and the promise stays
`pending` forever.  A response that is ok/401/403 resolves immediately; any
other response resolves on the last attempt and otherwise retries after the
backoff delay; a thrown error rejects on the last attempt or when it is an
AbortError on attempt ≥ 1, and otherwise retries after the backoff delay. -/
def fetchLoop (oracle : Nat → FetchOutcome) (maxRetries : Nat) :
    Nat → Nat → FetchRun
  | attempt, 0 => ⟨FetchResult.pending, attempt, []⟩
  | attempt, fuel + 1 =>
    match oracle attempt with
    | FetchOutcome.response status =>
      if probeTerminal status then
        ⟨FetchResult.resolved status, attempt, []⟩
      else if attempt = maxRetries then
        ⟨FetchResult.resolved status, attempt, []⟩
      else
        ⟨(fetchLoop oracle maxRetries (attempt + 1) fuel).result,
         (fetchLoop oracle maxRetries (attempt + 1) fuel).settledAt,
         backoffDelay attempt :: (fetchLoop oracle maxRetries (attempt + 1) fuel).waits⟩
    | FetchOutcome.failure name message =>
      if attempt = maxRetries ∨ (name = "AbortError" ∧ 1 ≤ attempt) then
        ⟨FetchResult.rejected "Error" (failedAfterMessage maxRetries message), attempt, []⟩
      else
        ⟨(fetchLoop oracle maxRetries (attempt + 1) fuel).result,
         (fetchLoop oracle maxRetries (attempt + 1) fuel).settledAt,
         backoffDelay attempt :: (fetchLoop oracle maxRetries (attempt + 1) fuel).waits⟩

/-- `fetchWithRetry` (src/actions.js lines 760–814), with the per-attempt
network outcomes supplied by `oracle`. -/
def fetchWithRetry (oracle : Nat → FetchOutcome) (maxRetries : Nat) : FetchRun :=
  fetchLoop oracle maxRetries 0 (maxRetries + 1)

/-- Attempt `m` neither settled the loop nor was skipped: its outcome was a
non-terminal response before the last attempt, or a thrown error that was
neither on the last attempt nor an AbortError on attempt ≥ 1. -/
def retriedAt (oracle : Nat → FetchOutcome) (maxRetries m : Nat) : Prop :=
  (∃ s, oracle m = FetchOutcome.response s ∧ ¬ probeTerminal s ∧ m ≠ maxRetries) ∨
  (∃ n e, oracle m = FetchOutcome.failure n e ∧ m ≠ maxRetries ∧
    ¬(n = "AbortError" ∧ 1 ≤ m))

/-- Full behavioural description of a retry-loop run started at `attempt`:
it settles no earlier than `attempt` and no later than `maxRetries`, every
attempt before the settling one was a retried transient outcome, the waits
are exactly the exponential backoff delays of the retried attempts, the
promise settles, a resolution returns the settling attempt's response under
the immediate-return or last-attempt condition, and a rejection wraps the
settling attempt's error under the last-attempt-or-abort condition. -/
structure FetchRunSpec (oracle : Nat → FetchOutcome) (maxRetries attempt : Nat)
    (run : FetchRun) : Prop where
  le_settledAt : attempt ≤ run.settledAt
  settledAt_le : run.settledAt ≤ maxRetries
  retried : ∀ m, attempt ≤ m → m < run.settledAt → retriedAt oracle maxRetries m
  waits_eq : run.waits = (List.range' attempt (run.settledAt - attempt)).map backoffDelay
  ne_pending : run.result ≠ FetchResult.pending
  resolved_spec : ∀ s, run.result = FetchResult.resolved s →
    oracle run.settledAt = FetchOutcome.response s ∧
    (probeTerminal s ∨ run.settledAt = maxRetries)
  rejected_spec : ∀ n m, run.result = FetchResult.rejected n m →
    n = "Error" ∧ ∃ nm e, oracle run.settledAt = FetchOutcome.failure nm e ∧
      m = failedAfterMessage maxRetries e ∧
      (run.settledAt = maxRetries ∨ (nm = "AbortError" ∧ 1 ≤ run.settledAt))

/-- The decision statuses `execute` can return. -/
inductive Status where
  | SUCCESS
  | FAILED
  | PERMISSION_DENIED
  | PENDING_CONFIRMATION
deriving DecidableEq

/-- The `data` payload attached to confirmation and permission-error
results; absent JavaScript keys are `none` / `false`. -/
structure NavData where
  page : String
  pageDescription : String
  targetUrl : String
  targetHostname : Option String
  currentHostname : Option String
  errorCode : Option Nat
  requiresConfirmation : Bool
  requiresPermissionError : Bool
deriving DecidableEq

/-- The result object of `execute`. -/
structure ExecResult where
  status : Status
  responseMessage : String
  data : Option NavData
deriving DecidableEq

/-- Message of the missing/non-string page branch (lines 36–41). -/
def missingPageMessage : String :=
  "Hmm, I didn\x27t understand which page you want to visit. Try saying something like \x27take me to dashboard\x27 or \x27open settings\x27."

/-- Message of the invalid-characters branch (lines 45–50). -/
def invalidCharsMessage (rawPage : String) : String :=
  "The page name \"" ++ (rawPage ++ "\" contains invalid characters. Please use only letters, numbers, and hyphens.")

/-- Message of the invalid-hostname branch (lines 54–59). -/
def hostnameMessage : String :=
  "Unable to determine current location. Please refresh the page and try again."

/-- The suggestion list for an unknown page (lines 68–70). -/
def suggestionsFor (page : String) (availablePages : List String) : List String :=
  (availablePages.filter
      fun p => jsIncludes p (String.mk (page.data.take 3)) ||
        jsIncludes page (String.mk (p.data.take 3))).take 3

/-- The help message for an unknown page (lines 72–79). -/
def helpMessage (rawPage page : String) (pages : List (String × PageInfo)) : String :=
  ("I couldn\x27t find a page called \"" ++ (rawPage ++ "\". ")) ++
  ((if 0 < (suggestionsFor page (pages.map Prod.fst)).length then
      "Did you mean: " ++
        (String.intercalate ", " (suggestionsFor page (pages.map Prod.fst)) ++ "? ")
    else "") ++
   ("\n\n" ++ (getAvailablePagesDescription ++ ("\n\n" ++
     "Just say something like \"take me to dashboard\" or \"open settings\"."))))

/-- Message of the invalid-URL branch (lines 90–95). -/
def oopsMessage (page : String) : String :=
  "Oops! Something went wrong trying to find the " ++ (page ++ " page. Please try again or ask for a different page.")

/-- Message of the cross-region denial branch (lines 105–110). -/
def crossRegionMessage (cur tgt : EnvType) (page : String) : String :=
  "Sorry, I can\x27t take you from " ++ (envTypeDisplay cur ++ (" to " ++
    (envTypeDisplay tgt ++ (". Please access " ++ (page ++ " from the correct environment.")))))

/-- Message of the cross-domain confirmation branch (line 116). -/
def pendingConfirmationMessage (rawPage description : String) : String :=
  "I can take you to " ++ (rawPage ++ (" (" ++ (jsToLowerCase description ++
    "), but you might need to sign in again. Would you like me to continue?")))

/-- Message of the permission-denied branch (line 139). -/
def permissionDeniedMessage (rawPage : String) : String :=
  "I can\x27t take you to " ++ (rawPage ++ " right now. You don\x27t have permission to access this area.")

/-- Message of the plain navigation success (line 154). -/
def successMessage (rawPage : String) : String :=
  "Taking you to " ++ (rawPage ++ " now!")

/-- Default message in the prefetch-failure path (line 159). -/
def defaultProceedMessage (rawPage : String) : String :=
  "Taking you to " ++ (rawPage ++ "!")

/-- Slow-connection advisory when the probe failed after all retries
(line 163). -/
def slowConnectionMessage (rawPage : String) : String :=
  "Taking you to " ++ (rawPage ++ " (connection was slow, but proceeding anyway)!")

/-- Loading-slowly advisory for a raw AbortError (line 166). -/
def loadingSlowlyMessage (rawPage : String) : String :=
  "Taking you to " ++ (rawPage ++ " (page is loading slowly, but proceeding anyway)!")

/-- Message of the outer catch-all handler (lines 179–185). -/
def genericErrorMessage (page : String) : String :=
  "Sorry, I couldn\x27t take you to " ++ (page ++ " right now. Something went wrong on my end. Please try again in a moment.")

/-- Result of the missing/non-string page branch. -/
def missingPageFailure : ExecResult :=
  ⟨Status.FAILED, missingPageMessage, none⟩

/-- Result of the invalid-characters branch. -/
def invalidCharsFailure (rawPage : String) : ExecResult :=
  ⟨Status.FAILED, invalidCharsMessage rawPage, none⟩

/-- Result of the invalid-hostname branch. -/
def hostnameFailure : ExecResult :=
  ⟨Status.FAILED, hostnameMessage, none⟩

/-- Result of the unknown-page branch. -/
def notFoundFailure (rawPage page : String) (pages : List (String × PageInfo)) : ExecResult :=
  ⟨Status.FAILED, helpMessage rawPage page pages, none⟩

/-- Result of the invalid-URL branch. -/
def oopsFailure (page : String) : ExecResult :=
  ⟨Status.FAILED, oopsMessage page, none⟩

/-- Result of the cross-region denial branch. -/
def crossRegionFailure (cur tgt : EnvType) (page : String) : ExecResult :=
  ⟨Status.FAILED, crossRegionMessage cur tgt page, none⟩

/-- Result of the cross-domain confirmation branch (lines 112–126). -/
def pendingConfirmationResult (rawPage : String) (info : PageInfo)
    (targetHostname currentHostname : String) : ExecResult :=
  ⟨Status.PENDING_CONFIRMATION, pendingConfirmationMessage rawPage info.description,
    some ⟨rawPage, info.description, info.url, some targetHostname,
      some currentHostname, none, true, false⟩⟩

/-- Result of the permission-denied branch (lines 136–148). -/
def permissionDeniedResult (rawPage : String) (info : PageInfo) (status : Nat) : ExecResult :=
  ⟨Status.PERMISSION_DENIED, permissionDeniedMessage rawPage,
    some ⟨rawPage, info.description, info.url, none, none, some status, false, true⟩⟩

/-- Result of the outer catch-all handler. -/
def genericFailure (page : String) : ExecResult :=
  ⟨Status.FAILED, genericErrorMessage page, none⟩

/-- The policy and probing part of `navigate_to_page.execute` (src/actions.js
lines 87–185), operating on the catalog entry resolved for the sanitized
page name.  The second component of the pair is the list of
`window.location.href` assignments performed; `none` models the `await` of a
never-settling probe promise. -/
def decideNavigation (rawPage page : String) (pageInfo : PageInfo)
    (currentHostname : String) (oracle : Nat → FetchOutcome) :
    Option (ExecResult × List String) :=
  let baseUrl := pageInfo.url
  if isValidUrl baseUrl = false then
    some (oopsFailure page, [])
  else
    match parseUrl? baseUrl with
    | none => some (genericFailure page, [])
    | some targetUrl =>
      if (getEnvironmentFromHostname currentHostname).type ≠
          (getEnvironmentFromHostname targetUrl.hostname).type then
        some (crossRegionFailure (getEnvironmentFromHostname currentHostname).type
          (getEnvironmentFromHostname targetUrl.hostname).type page, [])
      else if targetUrl.hostname ≠ currentHostname then
        some (pendingConfirmationResult rawPage pageInfo targetUrl.hostname currentHostname, [])
      else
        match (fetchWithRetry oracle 2).result with
        | FetchResult.pending => none
        | FetchResult.resolved s =>
          if s = 401 ∨ s = 403 then
            some (permissionDeniedResult rawPage pageInfo s, [])
          else
            some (⟨Status.SUCCESS, successMessage rawPage, none⟩, [baseUrl])
        | FetchResult.rejected name message =>
          if jsIncludes message "Failed after" = true then
            some (⟨Status.SUCCESS, slowConnectionMessage rawPage, none⟩, [baseUrl])
          else if name = "AbortError" then
            some (⟨Status.SUCCESS, loadingSlowlyMessage rawPage, none⟩, [baseUrl])
          else
            some (⟨Status.SUCCESS, defaultProceedMessage rawPage, none⟩, [baseUrl])

/-- `navigate_to_page.execute` (src/actions.js lines 33–186).  `pageParam` is
`params?.page` (`none` for a missing or non-string value) and
`currentLocation` is `window?.location?.hostname`. -/
def execute (pageParam : Option String) (currentLocation : Option String)
    (oracle : Nat → FetchOutcome) : Option (ExecResult × List String) :=
  match pageParam with
  | none => some (missingPageFailure, [])
  | some rawPage =>
    if rawPage = "" then
      some (missingPageFailure, [])
    else
      let page := sanitizePageName rawPage
      if page = "" then
        some (invalidCharsFailure rawPage, [])
      else
        match currentLocation with
        | none => some (hostnameFailure, [])
        | some rawHostname =>
          if validateHostname rawHostname = false then
            some (hostnameFailure, [])
          else
            match (getPageMapping rawHostname).lookup page with
            | none => some (notFoundFailure rawPage page (getPageMapping rawHostname), [])
            | some pageInfo => decideNavigation rawPage page pageInfo rawHostname oracle

/-- Concrete probe behaviour exercising the retry loop: a generic network
failure on attempt 0, an abort (timeout) on attempt 1, and a successful
response from attempt 2 on. -/
def c5Oracle : Nat → FetchOutcome := fun attempt =>
  if attempt = 0 then FetchOutcome.failure "TypeError" "Failed to fetch"
  else if attempt = 1 then FetchOutcome.failure "AbortError" "The operation was aborted"
  else FetchOutcome.response 200

/-- The head character of an append is the head of the (non-empty) left
part. -/
theorem string_head_append (a b : String) (c : Char) (hc : a.data.head? = some c) :
    (a ++ b).data.head? = some c := by
  rw [String.data_append]
  cases ha : a.data with
  | nil => rw [ha] at hc; cases hc
  | cons x t =>
    rw [ha] at hc
    simp only [List.head?_cons, Option.some.injEq] at hc
    simp [hc]

/-- A needle that is a list-prefix of the haystack is found by
`includesAux`. -/
theorem includesAux_of_prefix (needle l : List Char) (h : needle <+: l) :
    includesAux needle l = true := by
  cases l with
  | nil =>
    have hn : needle = [] := by
      obtain ⟨t, ht⟩ := h
      cases needle with
      | nil => rfl
      | cons a b => cases ht
    simp [includesAux, hn]
  | cons c rest =>
    simp only [includesAux, Bool.or_eq_true]
    exact Or.inl (List.isPrefixOf_iff_prefix.mpr h)

/-- Every rejection message produced by the retry loop contains the marker
"Failed after" that `execute` tests for. -/
theorem jsIncludes_failedAfter (maxRetries : Nat) (e : String) :
    jsIncludes (failedAfterMessage maxRetries e) "Failed after" = true := by
  unfold jsIncludes
  apply includesAux_of_prefix
  show "Failed after".data <+: (failedAfterMessage maxRetries e).data
  unfold failedAfterMessage
  simp only [String.data_append]
  have h0 : "Failed after".data <+: "Failed after ".data := by decide
  exact ((h0.trans (List.prefix_append _ _)).trans (List.prefix_append _ _)).trans
    (List.prefix_append _ _)

/-- A successful association-list lookup names a member of the list. -/
theorem mem_of_lookup {β : Type} (l : List (String × β)) (k : String) (v : β)
    (h : l.lookup k = some v) : (k, v) ∈ l := by
  induction l with
  | nil => cases h
  | cons p t ih =>
    obtain ⟨k1, v1⟩ := p
    simp only [List.lookup] at h
    cases hkb : (k == k1) with
    | true =>
      rw [hkb] at h
      simp only [Option.some.injEq] at h
      have hk : k = k1 := eq_of_beq hkb
      rw [hk, ← h]
      exact List.mem_cons_self _ _
    | false =>
      rw [hkb] at h
      exact List.mem_cons_of_mem _ (ih h)

/-- Characterization of the retry loop from any attempt with the correct
remaining fuel. -/
theorem fetchLoop_char (oracle : Nat → FetchOutcome) (maxRetries : Nat) :
    ∀ fuel attempt, attempt + fuel = maxRetries + 1 → 1 ≤ fuel →
      FetchRunSpec oracle maxRetries attempt (fetchLoop oracle maxRetries attempt fuel) := by
  intro fuel
  induction fuel with
  | zero => intro attempt _ h1; exact absurd h1 (by omega)
  | succ f ih =>
    intro attempt hsum _
    have hle : attempt ≤ maxRetries := by omega
    simp only [fetchLoop]
    split
    next status heq =>
      split
      next hterm =>
        refine ⟨Nat.le_refl _, hle, ?_, by simp, by simp, ?_, ?_⟩
        · intro m h1 h2
          exact absurd (show m < attempt from h2) (by omega)
        · intro s hs
          cases hs
          exact ⟨heq, Or.inl hterm⟩
        · intro n m hnm
          cases hnm
      next hterm =>
        split
        next hmax =>
          refine ⟨Nat.le_refl _, hle, ?_, by simp, by simp, ?_, ?_⟩
          · intro m h1 h2
            exact absurd (show m < attempt from h2) (by omega)
          · intro s hs
            cases hs
            exact ⟨heq, Or.inr hmax⟩
          · intro n m hnm
            cases hnm
        next hmax =>
          have hf : 1 ≤ f := by omega
          obtain ⟨H1, H2, H3, H4, H5, H6, H7⟩ := ih (attempt + 1) (by omega) hf
          refine ⟨Nat.le_of_succ_le H1, H2, ?_, ?_, H5, H6, H7⟩
          · intro m hm1 hm2
            by_cases hma : m = attempt
            · subst hma
              exact Or.inl ⟨status, heq, hterm, hmax⟩
            · exact H3 m (by omega) hm2
          · show backoffDelay attempt :: (fetchLoop oracle maxRetries (attempt + 1) f).waits = _
            have h1 : attempt + 1 ≤ (fetchLoop oracle maxRetries (attempt + 1) f).settledAt := H1
            rw [show (fetchLoop oracle maxRetries (attempt + 1) f).settledAt - attempt =
              ((fetchLoop oracle maxRetries (attempt + 1) f).settledAt - (attempt + 1)) + 1
              from by omega, List.range'_succ, List.map_cons, ← H4]
    next name message heq =>
      split
      next hcond =>
        refine ⟨Nat.le_refl _, hle, ?_, by simp, by simp, ?_, ?_⟩
        · intro m h1 h2
          exact absurd (show m < attempt from h2) (by omega)
        · intro s hs
          cases hs
        · intro n m hnm
          cases hnm
          exact ⟨rfl, name, message, heq, rfl, hcond⟩
      next hcond =>
        have hmax : attempt ≠ maxRetries := fun hx => hcond (Or.inl hx)
        have hf : 1 ≤ f := by omega
        obtain ⟨H1, H2, H3, H4, H5, H6, H7⟩ := ih (attempt + 1) (by omega) hf
        refine ⟨Nat.le_of_succ_le H1, H2, ?_, ?_, H5, H6, H7⟩
        · intro m hm1 hm2
          by_cases hma : m = attempt
          · subst hma
            exact Or.inr ⟨name, message, heq, hmax, fun hc => hcond (Or.inr hc)⟩
          · exact H3 m (by omega) hm2
        · show backoffDelay attempt :: (fetchLoop oracle maxRetries (attempt + 1) f).waits = _
          have h1 : attempt + 1 ≤ (fetchLoop oracle maxRetries (attempt + 1) f).settledAt := H1
          rw [show (fetchLoop oracle maxRetries (attempt + 1) f).settledAt - attempt =
            ((fetchLoop oracle maxRetries (attempt + 1) f).settledAt - (attempt + 1)) + 1
            from by omega, List.range'_succ, List.map_cons, ← H4]

/-- Characterization of a full `fetchWithRetry` run. -/
theorem fetchWithRetry_spec (oracle : Nat → FetchOutcome) (maxRetries : Nat) :
    FetchRunSpec oracle maxRetries 0 (fetchWithRetry oracle maxRetries) :=
  fetchLoop_char oracle maxRetries (maxRetries + 1) 0 (by omega) (by omega)

/-- Every catalog entry's URL parses, and its hostname resolves to the same
environment type as the hostname the catalog was built from. -/
theorem catalogEnvConsistent (h : String) :
    ∀ kv ∈ getPageMapping h, ∃ u, parseUrl? kv.2.url = some u ∧
      (getEnvironmentFromHostname u.hostname).type = (getEnvironmentFromHostname h).type := by
  intro kv hkv
  by_cases hUS : jsIncludes h "goaskcody.com" = true
  · simp only [getPageMapping, getEnvironmentFromHostname, hUS, if_true] at hkv ⊢
    fin_cases hkv <;> exact ⟨_, rfl, rfl⟩
  · by_cases hT : jsIncludes h "testaskcody.com" = true
    · simp only [getPageMapping, getEnvironmentFromHostname, hUS, hT, if_true,
        if_false] at hkv ⊢
      fin_cases hkv <;> exact ⟨_, rfl, rfl⟩
    · simp only [getPageMapping, getEnvironmentFromHostname, hUS, hT, if_false] at hkv ⊢
      fin_cases hkv <;> exact ⟨_, rfl, rfl⟩

/-- The cross-region denial message always starts with the letter S. -/
theorem crossRegionMessage_head (a b : EnvType) (pg : String) :
    (crossRegionMessage a b pg).data.head? = some 'S' :=
  string_head_append _ _ _ rfl

/-- The unknown-page help message always starts with the letter I. -/
theorem helpMessage_head (rawPage page : String) (pages : List (String × PageInfo)) :
    (helpMessage rawPage page pages).data.head? = some 'I' :=
  string_head_append _ _ _ (string_head_append _ _ _ rfl)

/-- A result whose status is not FAILED is not the cross-region denial
result. -/
theorem ne_crossRegionFailure_of_status (r : ExecResult)
    (h : r.status ≠ Status.FAILED) :
    ∀ a b pg, r ≠ crossRegionFailure a b pg := by
  intro a b pg he
  exact h (by rw [he]; rfl)

/-- A result whose message starts with a letter other than S is not the
cross-region denial result. -/
theorem ne_crossRegionFailure_of_head (r : ExecResult) (c : Char)
    (hc : r.responseMessage.data.head? = some c) (hne : c ≠ 'S') :
    ∀ a b pg, r ≠ crossRegionFailure a b pg := by
  intro a b pg he
  apply hne
  have hmsg : r.responseMessage = crossRegionMessage a b pg := by rw [he]; rfl
  rw [hmsg, crossRegionMessage_head] at hc
  exact (Option.some.inj hc).symm

/-- The slow-connection advisory differs from the plain proceed message for
every page name. -/
theorem slow_ne_default (rawPage : String) :
    slowConnectionMessage rawPage ≠ defaultProceedMessage rawPage := by
  intro h
  have hd := congrArg String.data h
  simp only [slowConnectionMessage, defaultProceedMessage, String.data_append] at hd
  have h1 := List.append_cancel_left hd
  have h2 := List.append_cancel_left h1
  exact absurd h2 (by decide)

/-- Master inversion for `execute`: it always returns, a SUCCESS result is
exactly one navigation to the looked-up catalog URL, every other result
performs no navigation, and no result is ever the cross-region denial. -/
theorem execute_master (p h : Option String) (oracle : Nat → FetchOutcome) :
    ∃ r navs, execute p h oracle = some (r, navs) ∧
      ((r.status = Status.SUCCESS ∧ ∃ raw host info, p = some raw ∧ h = some host ∧
          (getPageMapping host).lookup (sanitizePageName raw) = some info ∧
          navs = [info.url]) ∨
        (r.status ≠ Status.SUCCESS ∧ navs = [])) ∧
      (∀ a b pg, r ≠ crossRegionFailure a b pg) := by
  cases p with
  | none =>
    exact ⟨missingPageFailure, [], rfl, Or.inr ⟨by decide, rfl⟩,
      ne_crossRegionFailure_of_head _ 'H' rfl (by decide)⟩
  | some raw =>
    by_cases hraw : raw = ""
    · refine ⟨missingPageFailure, [], ?_, Or.inr ⟨by decide, rfl⟩,
        ne_crossRegionFailure_of_head _ 'H' rfl (by decide)⟩
      simp [execute, hraw]
    · by_cases hsan : sanitizePageName raw = ""
      · refine ⟨invalidCharsFailure raw, [], ?_, Or.inr ⟨by simp [invalidCharsFailure], rfl⟩,
          ne_crossRegionFailure_of_head _ 'T' (string_head_append _ _ _ rfl) (by decide)⟩
        simp [execute, hraw, hsan]
      · cases h with
        | none =>
          refine ⟨hostnameFailure, [], ?_, Or.inr ⟨by decide, rfl⟩,
            ne_crossRegionFailure_of_head _ 'U' rfl (by decide)⟩
          simp [execute, hraw, hsan]
        | some host =>
          by_cases hval : validateHostname host = false
          · refine ⟨hostnameFailure, [], ?_, Or.inr ⟨by decide, rfl⟩,
              ne_crossRegionFailure_of_head _ 'U' rfl (by decide)⟩
            simp [execute, hraw, hsan, hval]
          · cases hlook : (getPageMapping host).lookup (sanitizePageName raw) with
            | none =>
              refine ⟨notFoundFailure raw (sanitizePageName raw) (getPageMapping host), [],
                ?_, Or.inr ⟨by simp [notFoundFailure], rfl⟩,
                ne_crossRegionFailure_of_head _ 'I' (helpMessage_head _ _ _) (by decide)⟩
              simp [execute, hraw, hsan, hval, hlook]
            | some info =>
              by_cases hvurl : isValidUrl info.url = false
              · refine ⟨oopsFailure (sanitizePageName raw), [], ?_,
                  Or.inr ⟨by simp [oopsFailure], rfl⟩,
                  ne_crossRegionFailure_of_head _ 'O' (string_head_append _ _ _ rfl) (by decide)⟩
                simp [execute, decideNavigation, hraw, hsan, hval, hlook, hvurl]
              · cases hpu : parseUrl? info.url with
                | none =>
                  exact absurd (by simp [isValidUrl, hpu]) hvurl
                | some turl =>
                  have hmem := mem_of_lookup _ _ _ hlook
                  obtain ⟨u, hu, henv⟩ := catalogEnvConsistent host (sanitizePageName raw, info) hmem
                  rw [hpu] at hu
                  have hut : turl = u := Option.some.inj hu
                  subst hut
                  by_cases hcd : turl.hostname = host
                  · cases hres : (fetchWithRetry oracle 2).result with
                    | pending => exact absurd hres (fetchWithRetry_spec oracle 2).ne_pending
                    | resolved s =>
                      by_cases hs : s = 401 ∨ s = 403
                      · refine ⟨permissionDeniedResult raw info s, [], ?_,
                          Or.inr ⟨by simp [permissionDeniedResult], rfl⟩,
                          ne_crossRegionFailure_of_status _ (by simp [permissionDeniedResult])⟩
                        simp [execute, decideNavigation, hraw, hsan, hval, hlook, hvurl, hpu,
                          henv, hcd, hres, hs]
                      · refine ⟨⟨Status.SUCCESS, successMessage raw, none⟩, [info.url], ?_,
                          Or.inl ⟨rfl, raw, host, info, rfl, rfl, hlook, rfl⟩,
                          ne_crossRegionFailure_of_status _ (by simp)⟩
                        simp [execute, decideNavigation, hraw, hsan, hval, hlook, hvurl, hpu,
                          henv, hcd, hres, hs]
                    | rejected n m =>
                      by_cases hfa : jsIncludes m "Failed after" = true
                      · refine ⟨⟨Status.SUCCESS, slowConnectionMessage raw, none⟩, [info.url], ?_,
                          Or.inl ⟨rfl, raw, host, info, rfl, rfl, hlook, rfl⟩,
                          ne_crossRegionFailure_of_status _ (by simp)⟩
                        simp [execute, decideNavigation, hraw, hsan, hval, hlook, hvurl, hpu,
                          henv, hcd, hres, hfa]
                      · by_cases hab : n = "AbortError"
                        · refine ⟨⟨Status.SUCCESS, loadingSlowlyMessage raw, none⟩, [info.url], ?_,
                            Or.inl ⟨rfl, raw, host, info, rfl, rfl, hlook, rfl⟩,
                            ne_crossRegionFailure_of_status _ (by simp)⟩
                          simp [execute, decideNavigation, hraw, hsan, hval, hlook, hvurl, hpu,
                            henv, hcd, hres, hfa, hab]
                        · refine ⟨⟨Status.SUCCESS, defaultProceedMessage raw, none⟩, [info.url], ?_,
                            Or.inl ⟨rfl, raw, host, info, rfl, rfl, hlook, rfl⟩,
                            ne_crossRegionFailure_of_status _ (by simp)⟩
                          simp [execute, decideNavigation, hraw, hsan, hval, hlook, hvurl, hpu,
                            henv, hcd, hres, hfa, hab]
                  · refine ⟨pendingConfirmationResult raw info turl.hostname host, [], ?_,
                      Or.inr ⟨by simp [pendingConfirmationResult], rfl⟩,
                      ne_crossRegionFailure_of_status _ (by simp [pendingConfirmationResult])⟩
                    simp [execute, decideNavigation, hraw, hsan, hval, hlook, hvurl, hpu,
                      henv, hcd]

/-- C1: whenever the current hostname and the resolved target URL hostname
map to environments of different types, the policy step of `execute`
(`decideNavigation`, operating on the resolved page entry) returns the FAILED
cross-region denial with its cross-region message, performs no navigation,
and in particular never returns PENDING_CONFIRMATION — confirmation is never
offered for cross-region targets. -/
theorem C1_cross_region_denied (rawPage page : String) (info : PageInfo)
    (currentHostname : String) (oracle : Nat → FetchOutcome) (turl : UrlParts)
    (hvalid : isValidUrl info.url = true)
    (hparse : parseUrl? info.url = some turl)
    (hregion : (getEnvironmentFromHostname currentHostname).type ≠
      (getEnvironmentFromHostname turl.hostname).type) :
    decideNavigation rawPage page info currentHostname oracle =
      some (crossRegionFailure (getEnvironmentFromHostname currentHostname).type
        (getEnvironmentFromHostname turl.hostname).type page, []) ∧
    (crossRegionFailure (getEnvironmentFromHostname currentHostname).type
      (getEnvironmentFromHostname turl.hostname).type page).status = Status.FAILED ∧
    Status.FAILED ≠ Status.PENDING_CONFIRMATION := by
  have hv : ¬(isValidUrl info.url = false) := by simp [hvalid]
  refine ⟨?_, rfl, by decide⟩
  simp [decideNavigation, hv, hparse, hregion]

/-- Witness for C1: the spec's own example, current hostname
app.onaskcody.com against target hostname app.goaskcody.com. -/
theorem C1_witness :
    decideNavigation "dashboard" "dashboard"
      ⟨"https://app.goaskcody.com/manager/dashboard/", "Main workspace and overview",
        "management"⟩
      "app.onaskcody.com" (fun _ => FetchOutcome.response 200) =
      some (crossRegionFailure EnvType.EU_PRODUCTION EnvType.US_PRODUCTION "dashboard", []) := by
  have h := C1_cross_region_denied "dashboard" "dashboard"
    ⟨"https://app.goaskcody.com/manager/dashboard/", "Main workspace and overview",
      "management"⟩
    "app.onaskcody.com" (fun _ => FetchOutcome.response 200)
    ⟨"https:", "app.goaskcody.com"⟩ (by decide) (by decide) (by decide)
  exact h.1

/-- C2: a valid request whose resolved target hostname differs from the
current hostname but maps to the same environment type returns
PENDING_CONFIRMATION carrying the candidate URL, target hostname and page
description in its data, and performs no navigation. -/
theorem C2_cross_domain_confirmation (rawPage host : String)
    (oracle : Nat → FetchOutcome) (info : PageInfo) (turl : UrlParts)
    (h0 : rawPage ≠ "") (h1 : sanitizePageName rawPage ≠ "")
    (h2 : validateHostname host = true)
    (h3 : (getPageMapping host).lookup (sanitizePageName rawPage) = some info)
    (h4 : isValidUrl info.url = true)
    (h5 : parseUrl? info.url = some turl)
    (h6 : (getEnvironmentFromHostname turl.hostname).type =
      (getEnvironmentFromHostname host).type)
    (h7 : turl.hostname ≠ host) :
    execute (some rawPage) (some host) oracle =
      some (pendingConfirmationResult rawPage info turl.hostname host, []) ∧
    (pendingConfirmationResult rawPage info turl.hostname host).status =
      Status.PENDING_CONFIRMATION ∧
    (pendingConfirmationResult rawPage info turl.hostname host).data =
      some ⟨rawPage, info.description, info.url, some turl.hostname, some host,
        none, true, false⟩ := by
  have hvn : ¬(validateHostname host = false) := by simp [h2]
  have hv : ¬(isValidUrl info.url = false) := by simp [h4]
  refine ⟨?_, rfl, rfl⟩
  simp [execute, decideNavigation, h0, h1, hvn, h3, hv, h5, h6, h7]

/-- Witness for C2: the spec's example, page central from
app.onaskcody.com, resolving to eu.onaskcody.com/central/events. -/
theorem C2_witness :
    execute (some "central") (some "app.onaskcody.com")
      (fun _ => FetchOutcome.response 200) =
      some (pendingConfirmationResult "central"
        ⟨"https://eu.onaskcody.com/central/events",
          "Event management and scheduling central hub", "user"⟩
        "eu.onaskcody.com" "app.onaskcody.com", []) := by
  have h := C2_cross_domain_confirmation "central" "app.onaskcody.com"
    (fun _ => FetchOutcome.response 200)
    ⟨"https://eu.onaskcody.com/central/events",
      "Event management and scheduling central hub", "user"⟩
    ⟨"https:", "eu.onaskcody.com"⟩
    (by decide) (by decide) (by decide) (by decide) (by decide) (by decide)
    (by decide) (by decide)
  exact h.1

/-- C3: on a same-domain request, a probe resolving with status 401 or 403
yields PERMISSION_DENIED (a status distinct from FAILED) with the probe's
status code in `data.errorCode` and no navigation; any other resolved status
navigates to the target URL and returns SUCCESS. -/
theorem C3_probe_auth_handling (rawPage host : String)
    (oracle : Nat → FetchOutcome) (info : PageInfo) (turl : UrlParts) (s : Nat)
    (h0 : rawPage ≠ "") (h1 : sanitizePageName rawPage ≠ "")
    (h2 : validateHostname host = true)
    (h3 : (getPageMapping host).lookup (sanitizePageName rawPage) = some info)
    (h4 : isValidUrl info.url = true)
    (h5 : parseUrl? info.url = some turl)
    (h6 : turl.hostname = host)
    (hres : (fetchWithRetry oracle 2).result = FetchResult.resolved s) :
    ((s = 401 ∨ s = 403) →
      execute (some rawPage) (some host) oracle =
        some (permissionDeniedResult rawPage info s, []) ∧
      (permissionDeniedResult rawPage info s).status = Status.PERMISSION_DENIED ∧
      Status.PERMISSION_DENIED ≠ Status.FAILED ∧
      (permissionDeniedResult rawPage info s).data =
        some ⟨rawPage, info.description, info.url, none, none, some s, false, true⟩) ∧
    (¬(s = 401 ∨ s = 403) →
      execute (some rawPage) (some host) oracle =
        some (⟨Status.SUCCESS, successMessage rawPage, none⟩, [info.url])) := by
  have hvn : ¬(validateHostname host = false) := by simp [h2]
  have hv : ¬(isValidUrl info.url = false) := by simp [h4]
  have henv : (getEnvironmentFromHostname turl.hostname).type =
      (getEnvironmentFromHostname host).type := by rw [h6]
  constructor
  · intro hs
    refine ⟨?_, rfl, by decide, rfl⟩
    simp [execute, decideNavigation, h0, h1, hvn, h3, hv, h5, henv, h6, hres, hs]
  · intro hs
    simp [execute, decideNavigation, h0, h1, hvn, h3, hv, h5, henv, h6, hres, hs]

/-- Witness for C3: the spec's example, page dashboard from
app.onaskcody.com with a probe returning 403 (denied, no navigation) and a
probe resolving 500 after retries (success with navigation). -/
theorem C3_witness :
    execute (some "dashboard") (some "app.onaskcody.com")
      (fun _ => FetchOutcome.response 403) =
      some (permissionDeniedResult "dashboard"
        ⟨"https://app.onaskcody.com/manager/dashboard/", "Main workspace and overview",
          "management"⟩ 403, []) ∧
    execute (some "dashboard") (some "app.onaskcody.com")
      (fun _ => FetchOutcome.response 500) =
      some (⟨Status.SUCCESS, successMessage "dashboard", none⟩,
        ["https://app.onaskcody.com/manager/dashboard/"]) := by
  constructor
  · exact ((C3_probe_auth_handling "dashboard" "app.onaskcody.com"
      (fun _ => FetchOutcome.response 403)
      ⟨"https://app.onaskcody.com/manager/dashboard/", "Main workspace and overview",
        "management"⟩
      ⟨"https:", "app.onaskcody.com"⟩ 403
      (by decide) (by decide) (by decide) (by decide) (by decide) (by decide) rfl
      (by decide)).1 (by decide)).1
  · exact (C3_probe_auth_handling "dashboard" "app.onaskcody.com"
      (fun _ => FetchOutcome.response 500)
      ⟨"https://app.onaskcody.com/manager/dashboard/", "Main workspace and overview",
        "management"⟩
      ⟨"https:", "app.onaskcody.com"⟩ 500
      (by decide) (by decide) (by decide) (by decide) (by decide) (by decide) rfl
      (by decide)).2 (by decide)

/-- C4: on a same-domain request whose probe promise is rejected (every
attempt failed), `execute` still navigates to the target URL and returns
SUCCESS (fail-open), with the slow-connection advisory message, which
differs from the plain proceed message used for other outcomes. -/
theorem C4_fail_open (rawPage host : String) (oracle : Nat → FetchOutcome)
    (info : PageInfo) (turl : UrlParts) (n m : String)
    (h0 : rawPage ≠ "") (h1 : sanitizePageName rawPage ≠ "")
    (h2 : validateHostname host = true)
    (h3 : (getPageMapping host).lookup (sanitizePageName rawPage) = some info)
    (h4 : isValidUrl info.url = true)
    (h5 : parseUrl? info.url = some turl)
    (h6 : turl.hostname = host)
    (hrej : (fetchWithRetry oracle 2).result = FetchResult.rejected n m) :
    execute (some rawPage) (some host) oracle =
      some (⟨Status.SUCCESS, slowConnectionMessage rawPage, none⟩, [info.url]) ∧
    slowConnectionMessage rawPage ≠ defaultProceedMessage rawPage := by
  have hvn : ¬(validateHostname host = false) := by simp [h2]
  have hv : ¬(isValidUrl info.url = false) := by simp [h4]
  have henv : (getEnvironmentFromHostname turl.hostname).type =
      (getEnvironmentFromHostname host).type := by rw [h6]
  obtain ⟨-, nm, e, -, hm, -⟩ := (fetchWithRetry_spec oracle 2).rejected_spec n m hrej
  have hfa : jsIncludes m "Failed after" = true := by
    rw [hm]
    exact jsIncludes_failedAfter 2 e
  refine ⟨?_, slow_ne_default rawPage⟩
  simp [execute, decideNavigation, h0, h1, hvn, h3, hv, h5, henv, h6, hrej, hfa]

/-- Witness for C4: page dashboard from app.onaskcody.com with every probe
attempt aborting. -/
theorem C4_witness :
    execute (some "dashboard") (some "app.onaskcody.com")
      (fun _ => FetchOutcome.failure "AbortError" "t") =
      some (⟨Status.SUCCESS, slowConnectionMessage "dashboard", none⟩,
        ["https://app.onaskcody.com/manager/dashboard/"]) ∧
    slowConnectionMessage "dashboard" ≠ defaultProceedMessage "dashboard" := by
  have h := C4_fail_open "dashboard" "app.onaskcody.com"
    (fun _ => FetchOutcome.failure "AbortError" "t")
    ⟨"https://app.onaskcody.com/manager/dashboard/", "Main workspace and overview",
      "management"⟩
    ⟨"https:", "app.onaskcody.com"⟩ "Error" (failedAfterMessage 2 "t")
    (by decide) (by decide) (by decide) (by decide) (by decide) (by decide) rfl
    (by decide)
  exact h

/-- C5 (amended): `fetchWithRetry` follows the retry algorithm with one
exception to the claim as stated — per-attempt timeouts are strictly
increasing (`baseTimeout + attempt * 1000`); an ok or 401/403 response
resolves immediately; any other response retries and the last response is
resolved verbatim on the final attempt; network failures are retried with
`2 ^ attempt * 500` backoff, but a failure is rejected not only on the final
attempt: an AbortError (timeout) on any attempt ≥ 1 rejects immediately,
and the rejection message always reports `maxRetries + 1` attempts. -/
theorem C5_amended_retry_policy (oracle : Nat → FetchOutcome)
    (maxRetries baseTimeout : Nat) :
    (∀ attempt, attemptTimeout baseTimeout attempt <
      attemptTimeout baseTimeout (attempt + 1)) ∧
    FetchRunSpec oracle maxRetries 0 (fetchWithRetry oracle maxRetries) ∧
    (fetchWithRetry oracle maxRetries).waits =
      (List.range (fetchWithRetry oracle maxRetries).settledAt).map backoffDelay := by
  refine ⟨?_, fetchWithRetry_spec oracle maxRetries, ?_⟩
  · intro attempt
    simp only [attemptTimeout]
    omega
  · have h := (fetchWithRetry_spec oracle maxRetries).waits_eq
    rw [h, List.range_eq_range']
    simp

/-- Counterexample for C5 as stated: with maxRetries 2, an abort on attempt
1 rejects immediately at attempt 1 — not after failing on the final attempt
2, whose outcome would have been a successful response. -/
theorem C5_counterexample :
    (fetchWithRetry c5Oracle 2).result =
      FetchResult.rejected "Error" (failedAfterMessage 2 "The operation was aborted") ∧
    (fetchWithRetry c5Oracle 2).settledAt = 1 ∧
    (fetchWithRetry c5Oracle 2).settledAt ≠ 2 ∧
    c5Oracle 2 = FetchOutcome.response 200 ∧
    responseOk 200 = true := by
  exact ⟨rfl, rfl, by decide, rfl, rfl⟩

/-- Witness for C5: the amended policy applied to a concrete run. -/
theorem C5_witness :
    attemptTimeout 2000 0 < attemptTimeout 2000 1 ∧
    (fetchWithRetry (fun _ => FetchOutcome.response 500) 2).settledAt ≤ 2 := by
  have h := C5_amended_retry_policy (fun _ => FetchOutcome.response 500) 2 2000
  exact ⟨h.1 0, h.2.1.settledAt_le⟩

/-- C6: `execute` always returns; it returns SUCCESS exactly when it
assigned the browser location, every non-SUCCESS outcome leaves the
location assignment list empty, and every SUCCESS return performed exactly
one assignment, to the resolved catalog URL. -/
theorem C6_success_iff_navigation (p h : Option String)
    (oracle : Nat → FetchOutcome) :
    (∃ r navs, execute p h oracle = some (r, navs)) ∧
    (∀ r navs, execute p h oracle = some (r, navs) →
      (r.status = Status.SUCCESS ↔ navs ≠ []) ∧
      (r.status = Status.SUCCESS → ∃ raw host info, p = some raw ∧ h = some host ∧
        (getPageMapping host).lookup (sanitizePageName raw) = some info ∧
        navs = [info.url])) := by
  obtain ⟨r0, n0, heq, hdisj, -⟩ := execute_master p h oracle
  refine ⟨⟨r0, n0, heq⟩, ?_⟩
  intro r navs h2
  rw [heq] at h2
  have h3 := Option.some.inj h2
  injection h3 with hr hn
  subst hr
  subst hn
  rcases hdisj with ⟨hst, raw, host, info, hp, hh, hl, hnav⟩ | ⟨hst, hnav⟩
  · subst hnav
    exact ⟨⟨fun _ => by simp, fun _ => hst⟩, fun _ => ⟨raw, host, info, hp, hh, hl, rfl⟩⟩
  · subst hnav
    exact ⟨⟨fun hs => absurd hs hst, fun hne => absurd rfl hne⟩, fun hs => absurd hs hst⟩

/-- Witness for C6: a successful same-domain navigation has a non-empty
assignment list. -/
theorem C6_witness :
    (["https://app.onaskcody.com/manager/dashboard/"] : List String) ≠ [] ∧
    (⟨Status.SUCCESS, successMessage "dashboard", none⟩ : ExecResult).status =
      Status.SUCCESS := by
  have h := (C6_success_iff_navigation (some "dashboard") (some "app.onaskcody.com")
    (fun _ => FetchOutcome.response 200)).2
    ⟨Status.SUCCESS, successMessage "dashboard", none⟩
    ["https://app.onaskcody.com/manager/dashboard/"] (by decide)
  exact ⟨h.1.mp rfl, rfl⟩

/-- C7: `getEnvironmentFromHostname` is total and classifies in order: a
hostname containing the US marker is US_PRODUCTION; else one containing the
test marker is TEST; every other hostname falls back to EU_PRODUCTION. -/
theorem C7_classification (hostname : String) :
    (jsIncludes hostname "goaskcody.com" = true →
      (getEnvironmentFromHostname hostname).type = EnvType.US_PRODUCTION) ∧
    (jsIncludes hostname "goaskcody.com" = false →
      jsIncludes hostname "testaskcody.com" = true →
      (getEnvironmentFromHostname hostname).type = EnvType.TEST) ∧
    (jsIncludes hostname "goaskcody.com" = false →
      jsIncludes hostname "testaskcody.com" = false →
      (getEnvironmentFromHostname hostname).type = EnvType.EU_PRODUCTION) := by
  refine ⟨fun hu => ?_, fun hu ht => ?_, fun hu ht => ?_⟩
  · simp [getEnvironmentFromHostname, hu]
  · simp [getEnvironmentFromHostname, hu, ht]
  · simp [getEnvironmentFromHostname, hu, ht]

/-- Witness for C7: one hostname of each class. -/
theorem C7_witness :
    (getEnvironmentFromHostname "app.goaskcody.com").type = EnvType.US_PRODUCTION ∧
    (getEnvironmentFromHostname "app.testaskcody.com").type = EnvType.TEST ∧
    (getEnvironmentFromHostname "example.com").type = EnvType.EU_PRODUCTION := by
  exact ⟨(C7_classification "app.goaskcody.com").1 (by decide),
    (C7_classification "app.testaskcody.com").2.1 (by decide) (by decide),
    (C7_classification "example.com").2.2 (by decide) (by decide)⟩

/-- Counterexample for C8 as stated: the empty string sanitizes to empty,
yet `execute` rejects it in the earlier missing-page branch whose message is
not the invalid-characters message. -/
theorem C8_counterexample :
    execute (some "") (some "app.onaskcody.com")
      (fun _ => FetchOutcome.response 200) = some (missingPageFailure, []) ∧
    sanitizePageName "" = "" ∧
    missingPageFailure.responseMessage ≠ invalidCharsMessage "" := by
  exact ⟨rfl, rfl, by decide⟩

/-- C8 (amended): every non-empty raw page name whose sanitized form is
empty is rejected with FAILED and the specific invalid-characters message;
the empty string itself is instead caught by the earlier missing-page check
with a different, generic message. -/
theorem C8_amended_invalid_characters (rawPage : String)
    (currentLocation : Option String) (oracle : Nat → FetchOutcome)
    (h0 : rawPage ≠ "") (h1 : sanitizePageName rawPage = "") :
    execute (some rawPage) currentLocation oracle =
      some (invalidCharsFailure rawPage, []) ∧
    (invalidCharsFailure rawPage).status = Status.FAILED ∧
    (invalidCharsFailure rawPage).responseMessage = invalidCharsMessage rawPage := by
  refine ⟨?_, rfl, rfl⟩
  simp [execute, h0, h1]

/-- Witness for C8: a page name of only punctuation sanitizes to empty and
triggers the invalid-characters failure. -/
theorem C8_witness :
    execute (some "!!!") (some "app.onaskcody.com")
      (fun _ => FetchOutcome.response 200) =
      some (invalidCharsFailure "!!!", []) := by
  exact (C8_amended_invalid_characters "!!!" (some "app.onaskcody.com")
    (fun _ => FetchOutcome.response 200) (by decide) (by decide)).1

/-- C9: in every environment, each synonym page key resolves to a URL
byte-identical to its canonical entry's URL. -/
theorem C9_synonym_urls (h : String) :
    (((getPageMapping h).lookup "home").map PageInfo.url =
      ((getPageMapping h).lookup "dashboard").map PageInfo.url) ∧
    (((getPageMapping h).lookup "admin-center").map PageInfo.url =
      ((getPageMapping h).lookup "settings").map PageInfo.url) ∧
    (((getPageMapping h).lookup "guests").map PageInfo.url =
      ((getPageMapping h).lookup "visitors").map PageInfo.url) ∧
    (((getPageMapping h).lookup "analytics").map PageInfo.url =
      ((getPageMapping h).lookup "insights").map PageInfo.url) ∧
    (((getPageMapping h).lookup "reports").map PageInfo.url =
      ((getPageMapping h).lookup "insights").map PageInfo.url) ∧
    (((getPageMapping h).lookup "events").map PageInfo.url =
      ((getPageMapping h).lookup "central").map PageInfo.url) ∧
    (((getPageMapping h).lookup "floor-plans").map PageInfo.url =
      ((getPageMapping h).lookup "maps").map PageInfo.url) ∧
    (((getPageMapping h).lookup "reservations").map PageInfo.url =
      ((getPageMapping h).lookup "bookings").map PageInfo.url) ∧
    (((getPageMapping h).lookup "meeting-rooms").map PageInfo.url =
      ((getPageMapping h).lookup "bookings").map PageInfo.url) :=
  ⟨rfl, rfl, rfl, rfl, rfl, rfl, rfl, rfl, rfl⟩

/-- C10: for every current hostname, every catalog entry's URL resolves to
the same environment type as the current hostname, so the cross-region
denial of `execute` is unreachable: no input makes `execute` return the
cross-region failure. -/
theorem C10_cross_region_unreachable :
    (∀ h, ∀ kv ∈ getPageMapping h, ∃ u, parseUrl? kv.2.url = some u ∧
      (getEnvironmentFromHostname u.hostname).type =
        (getEnvironmentFromHostname h).type) ∧
    (∀ p h oracle r navs, execute p h oracle = some (r, navs) →
      ∀ a b pg, r ≠ crossRegionFailure a b pg) := by
  refine ⟨catalogEnvConsistent, ?_⟩
  intro p h oracle r navs heq a b pg
  obtain ⟨r0, n0, heq0, -, hne⟩ := execute_master p h oracle
  rw [heq0] at heq
  have h3 := Option.some.inj heq
  injection h3 with hr hn
  rw [← hr]
  exact hne a b pg

/-- Witness for C10: the dashboard entry of the EU catalog stays in the EU
region, and a concrete execution's result is not the cross-region
failure. -/
theorem C10_witness :
    (∃ u, parseUrl? "https://app.onaskcody.com/manager/dashboard/" = some u ∧
      (getEnvironmentFromHostname u.hostname).type =
        (getEnvironmentFromHostname "app.onaskcody.com").type) ∧
    missingPageFailure ≠
      crossRegionFailure EnvType.EU_PRODUCTION EnvType.US_PRODUCTION "dashboard" := by
  constructor
  · exact C10_cross_region_unreachable.1 "app.onaskcody.com"
      ("dashboard", ⟨"https://app.onaskcody.com/manager/dashboard/",
        "Main workspace and overview", "management"⟩) (by decide)
  · exact C10_cross_region_unreachable.2 none (some "app.onaskcody.com")
      (fun _ => FetchOutcome.response 200) missingPageFailure [] rfl
      EnvType.EU_PRODUCTION EnvType.US_PRODUCTION "dashboard"

end AskCody
